import Mathlib

/-!
Verification of the synchronization engine of the aviation-weather service
(`internal/service/service.go`).

The embedding is shallow: every external collaborator of the engine (the
record store and the two remote providers) is a field of an `Env` value, and
each service operation is a Lean function of the `Env` that returns both its
Go result and the linear trace of collaborator calls it performed (including
the fixed `time.Sleep` delays, recorded as `Call.sleepMs`).  Counters use
`Nat`: the Go counters only ever increment from zero, so no overflow of a
64-bit `int` is reachable at realistic record counts.  Per-chunk goroutine
results are collected through a channel and combined by addition, which is
order independent, so the model folds over the chunk list in order; the
recorded trace is one linearization of the concurrent calls.
-/

namespace AviationWeather

/-- A transport-level error message, as carried by a Go `error` value of a
collaborator call. -/
abbrev Err := String

/-- An airport record, mirroring `domain.Airport` in
`internal/domain/models.go`: sixteen string fields. -/
structure Airport where
  siteNumber    : String
  facilityName  : String
  faa           : String
  icao          : String
  stateCode     : String
  stateFull     : String
  county        : String
  city          : String
  ownershipType : String
  useType       : String
  manager       : String
  managerPhone  : String
  latitude      : String
  longitude     : String
  airportStatus : String
  weather       : String
  deriving DecidableEq, Repr, Inhabited

/-- The Go zero value of `domain.Airport`: every field is the empty string. -/
def emptyAirport : Airport :=
  ⟨"", "", "", "", "", "", "", "", "", "", "", "", "", "", "", ""⟩

/-- The incompleteness test of `service.go` (used identically in
`SyncAirportByFAA` lines 176–189 and in `processChunk` lines 244–257): a
record needs a directory refetch when any descriptive field other than the
FAA identifier and the weather text is empty. -/
def needsAirportFetch (a : Airport) : Bool :=
  a.siteNumber == "" || a.facilityName == "" || a.icao == "" ||
  a.stateCode == "" || a.stateFull == "" || a.county == "" ||
  a.city == "" || a.ownershipType == "" || a.useType == "" ||
  a.manager == "" || a.managerPhone == "" || a.latitude == "" ||
  a.longitude == "" || a.airportStatus == ""

/-- One collaborator call made by the engine, as recorded in a trace.
`sleepMs` records a `time.Sleep` of the given number of milliseconds. -/
inductive Call where
  | getAllAirports
  | getAirportByFAA (faa : String)
  | fetchAirport (faa : String)
  | fetchAirportsBatch (faaList : List String)
  | fetchWeather (city : String)
  | updateAirport (a : Airport)
  | sleepMs (ms : Nat)
  deriving DecidableEq, Repr

/-- An error produced by the service layer, one constructor per distinct
`fmt.Errorf` site of `service.go` reachable from the sync operations. -/
inductive SvcErr where
  | failedGetAirports (e : Err)
  | noAirportsToSync
  | failedSyncAllAirports
  | failedGetAirport (faa : String) (e : Err)
  | noAirportFound (faa : String)
  | failedFetchAirport (faa : String) (e : Err)
  | failedFetchWeather (city : String) (e : Err)
  | failedUpdateAirport (faa : String) (e : Err)
  deriving DecidableEq, Repr

/-- The collaborators of the engine: the record store (`repository`) and the
three overridable remote helpers of the `Service` struct.  The batch lookup
additionally takes the attempt index with which the retry loop invokes it, so
that a stateful collaborator whose successive calls differ (fails twice, then
succeeds) is expressible.  `updateAirport` returns `none` on success and
`some e` on failure, matching a Go `error` return. -/
structure Env where
  getAllAirports     : Except Err (List Airport)
  getAirportByFAA    : String → Except Err (Option Airport)
  fetchAirport       : String → Except Err (Option Airport)
  fetchAirportsBatch : Nat → List String → Except Err (List Airport)
  fetchWeather       : String → Except Err String
  updateAirport      : Airport → Option Err

/-- The directory-refetch step of `SyncAirportByFAA` (lines 191–201): when the
stored record is incomplete, call the single-airport remote lookup; a `nil`
result with no error becomes a not-found error.  Returns the record to carry
forward and the calls made. -/
def resolveAirport (env : Env) (faa : String) (stored : Airport) :
    Except SvcErr Airport × List Call :=
  if needsAirportFetch stored then
    match env.fetchAirport faa with
    | .error e => (.error (.failedFetchAirport faa e), [.fetchAirport faa])
    | .ok none => (.error (.noAirportFound faa), [.fetchAirport faa])
    | .ok (some fetched) => (.ok fetched, [.fetchAirport faa])
  else
    (.ok stored, [])

/-- The weather-refresh and persistence step of `SyncAirportByFAA`
(lines 203–215): always refresh the weather for the record, then save it. -/
def refreshAndSave (env : Env) (faa : String) (airport : Airport) :
    Except SvcErr Airport × List Call :=
  match env.fetchWeather airport.city with
  | .error e =>
      (.error (.failedFetchWeather airport.city e), [.fetchWeather airport.city])
  | .ok w =>
      let saved : Airport := { airport with weather := w }
      match env.updateAirport saved with
      | some e =>
          (.error (.failedUpdateAirport faa e),
            [.fetchWeather airport.city, .updateAirport saved])
      | none =>
          (.ok saved, [.fetchWeather airport.city, .updateAirport saved])

/-- The single-record sync operation `SyncAirportByFAA` (lines 165–216): read
the stored record (error if the lookup fails, not-found error if absent),
refetch it from the directory when incomplete, refresh its weather, persist
it.  Exactly one of the Go return values `(*Airport, error)` is non-nil,
which the `Except` captures. -/
def syncAirportByFAA (env : Env) (faa : String) :
    Except SvcErr Airport × List Call :=
  match env.getAirportByFAA faa with
  | .error e => (.error (.failedGetAirport faa e), [.getAirportByFAA faa])
  | .ok none => (.error (.noAirportFound faa), [.getAirportByFAA faa])
  | .ok (some stored) =>
      let rs := resolveAirport env faa stored
      match rs.1 with
      | .error e => (.error e, Call.getAirportByFAA faa :: rs.2)
      | .ok airport =>
          let fin := refreshAndSave env faa airport
          (fin.1, Call.getAirportByFAA faa :: (rs.2 ++ fin.2))

/-- The post-decode logic of the real single-airport helper
`fetchAirportFromAviationAPI` (lines 344–372).  `resp` stands for the outcome
of the HTTP transport, status check and JSON decode (an error, or the decoded
map from identifier to airport list); the helper then takes the first entry
for `faa`, or the zero-value record when the map holds none, and returns a
non-nil pointer in both cases. -/
def fetchAirportFromAviationAPI (resp : Except Err (String → List Airport))
    (faa : String) : Except Err (Option Airport) :=
  match resp with
  | .error e => .error e
  | .ok decoded =>
      .ok (some (match decoded faa with
        | [] => emptyAirport
        | a :: _ => a))

/-- A per-chunk outcome, mirroring the anonymous `result` struct of
`SyncAllAirports` (lines 227–230). -/
structure ChunkResult where
  updated : Nat
  errors  : Nat
  deriving DecidableEq, Repr

/-- The batch retry loop of `processChunk` (lines 270–279): at most two
attempts at the batch lookup, with a fixed one-second backoff after a failed
first attempt; the second error, when both fail, is the one kept. -/
def batchFetchRetry (env : Env) (faaList : List String) :
    Except Err (List Airport) × List Call :=
  match env.fetchAirportsBatch 0 faaList with
  | .ok fetched => (.ok fetched, [.fetchAirportsBatch faaList])
  | .error _ =>
      match env.fetchAirportsBatch 1 faaList with
      | .ok fetched =>
          (.ok fetched,
            [.fetchAirportsBatch faaList, .sleepMs 1000, .fetchAirportsBatch faaList])
      | .error e =>
          (.error e,
            [.fetchAirportsBatch faaList, .sleepMs 1000, .fetchAirportsBatch faaList])

/-- The sequential single-record fallback of `processChunk` (lines 282–292):
for each identifier run `SyncAirportByFAA`, count a success or an error, and
sleep 200ms between consecutive lookups; no per-record error escapes. -/
def fallbackLoop (env : Env) : List String → ChunkResult × List Call
  | [] => (⟨0, 0⟩, [])
  | faa :: rest =>
      let one := syncAirportByFAA env faa
      let r := fallbackLoop env rest
      match one.1 with
      | .ok _ =>
          (⟨r.1.updated + 1, r.1.errors⟩, one.2 ++ (Call.sleepMs 200 :: r.2))
      | .error _ =>
          (⟨r.1.updated, r.1.errors + 1⟩, one.2 ++ (Call.sleepMs 200 :: r.2))

/-- The weather-refresh loop of `processChunk` (lines 300–318): for each
record fetch the weather; on failure count an error and continue; otherwise
persist the updated record, counting an error and continuing on persistence
failure, and a success (followed by a 200ms sleep) otherwise. -/
def weatherLoop (env : Env) : List Airport → ChunkResult × List Call
  | [] => (⟨0, 0⟩, [])
  | a :: rest =>
      let r := weatherLoop env rest
      match env.fetchWeather a.city with
      | .error _ =>
          (⟨r.1.updated, r.1.errors + 1⟩, Call.fetchWeather a.city :: r.2)
      | .ok w =>
          let saved : Airport := { a with weather := w }
          match env.updateAirport saved with
          | some _ =>
              (⟨r.1.updated, r.1.errors + 1⟩,
                Call.fetchWeather a.city :: Call.updateAirport saved :: r.2)
          | none =>
              (⟨r.1.updated + 1, r.1.errors⟩,
                Call.fetchWeather a.city :: Call.updateAirport saved ::
                  Call.sleepMs 200 :: r.2)

/-- The identifiers of the incomplete records of a chunk, in chunk order
(`processChunk` lines 243–264, the `incompleteFAA` slice). -/
def incompleteFAAOf (chunk : List Airport) : List String :=
  (chunk.filter (fun a => needsAirportFetch a)).map Airport.faa

/-- The complete records of a chunk, in chunk order (`processChunk`
lines 243–264, the `completeAirports` slice). -/
def completeOf (chunk : List Airport) : List Airport :=
  chunk.filter (fun a => !needsAirportFetch a)

/-- The chunk worker `processChunk` of `SyncAllAirports` (lines 236–321):
split the chunk into incomplete records (whose identifiers go to the batch
lookup) and complete ones; on batch failure after the retry, fall back to
sequential single-record syncs for the incomplete identifiers (the fetched
list stays empty); finally refresh weather for the fetched records followed
by the complete ones, summing the counters. -/
def processChunk (env : Env) (chunk : List Airport) : ChunkResult × List Call :=
  let incompleteFAA := incompleteFAAOf chunk
  let completeAirports := completeOf chunk
  if incompleteFAA.isEmpty then
    weatherLoop env completeAirports
  else
    let batch := batchFetchRetry env incompleteFAA
    match batch.1 with
    | .ok fetched =>
        let r := weatherLoop env (fetched ++ completeAirports)
        (r.1, batch.2 ++ r.2)
    | .error _ =>
        let rf := fallbackLoop env incompleteFAA
        let rw := weatherLoop env completeAirports
        (⟨rf.1.updated + rw.1.updated, rf.1.errors + rw.1.errors⟩,
          batch.2 ++ rf.2 ++ rw.2)

/-- The fixed chunk size of `SyncAllAirports` (line 232). -/
def chunkSize : Nat := 20

/-- The chunk count of `SyncAllAirports` (line 233):
`(len(airports) + chunkSize - 1) / chunkSize`. -/
def numChunks (n : Nat) : Nat := (n + chunkSize - 1) / chunkSize

/-- The chunk slices launched by the goroutine loop of `SyncAllAirports`
(lines 324–327): the slice starting at each multiple of `chunkSize`, of
length at most `chunkSize`. -/
def chunksOf (l : List α) : List (List α) :=
  (List.range (numChunks l.length)).map fun k => (l.drop (k * chunkSize)).take chunkSize

/-- The Go return value of `SyncAllAirports`, a pair `(int, error)`, together
with the recorded trace. -/
structure SyncAllResult where
  updated : Nat
  err     : Option SvcErr
  trace   : List Call
  deriving DecidableEq, Repr

/-- The two totals accumulated by the result-collection loop of
`SyncAllAirports` (lines 330–335): the sums of the per-chunk updated and
error counts.  Collection order over the channel varies between runs, and
addition is order independent, so the fold is taken in chunk order. -/
def syncAllTotals (env : Env) (airports : List Airport) : Nat × Nat :=
  let results := (chunksOf airports).map (processChunk env)
  ((results.map fun r => r.1.updated).sum, (results.map fun r => r.1.errors).sum)

/-- One linearization of the calls of a bulk run over a non-empty record
set: the store read followed by the per-chunk calls (the chunk goroutines
interleave their calls between chunks; within one chunk the order is as
recorded). -/
def syncAllTrace (env : Env) (airports : List Airport) : List Call :=
  Call.getAllAirports ::
    (((chunksOf airports).map (processChunk env)).map fun r => r.2).flatten

/-- The bulk sync operation `SyncAllAirports` (lines 218–341): read the full
record set (error if the read fails, `noAirportsToSync` if empty), process
every chunk, sum the per-chunk counters (`syncAllTotals`), and apply the
aggregate outcome policy of lines 337–340: an error exactly when there were
errors and no record was updated. -/
def syncAllAirports (env : Env) : SyncAllResult :=
  match env.getAllAirports with
  | .error e => ⟨0, some (.failedGetAirports e), [.getAllAirports]⟩
  | .ok airports =>
      if airports.isEmpty then
        ⟨0, some .noAirportsToSync, [.getAllAirports]⟩
      else
        if 0 < (syncAllTotals env airports).2 ∧ (syncAllTotals env airports).1 = 0 then
          ⟨0, some .failedSyncAllAirports, syncAllTrace env airports⟩
        else
          ⟨(syncAllTotals env airports).1, none, syncAllTrace env airports⟩

/-- A reply to a queued job, mirroring the pair of one-slot reply channels of
`syncJob` and `syncAllJob` (lines 65–69 and 97–100): after the worker serves
the job, each channel holds at most one message. -/
structure JobReply (α : Type) where
  resultSlot : Option α
  errSlot    : Option SvcErr
  deriving DecidableEq, Repr

/-- One iteration of the single-record worker loop `runSyncWorker`
(lines 71–80): run the sync to completion and deliver the error on the error
channel, or else the record on the result channel. -/
def serveSyncJob (env : Env) (faa : String) : JobReply Airport :=
  match (syncAirportByFAA env faa).1 with
  | .error e => ⟨none, some e⟩
  | .ok a => ⟨some a, none⟩

/-- The single-record worker loop `runSyncWorker` (lines 71–80) over the
queued jobs in queue order: each job is served to completion before the next
is pulled. -/
def runSyncWorker (env : Env) : List String → List (JobReply Airport)
  | [] => []
  | faa :: rest => serveSyncJob env faa :: runSyncWorker env rest

/-- One iteration of the bulk worker loop `runSyncAllWorker` (lines 102–111):
run the bulk sync to completion and deliver the error, or else the updated
count. -/
def serveSyncAllJob (env : Env) : JobReply Nat :=
  let r := syncAllAirports env
  match r.err with
  | some e => ⟨none, some e⟩
  | none => ⟨some r.updated, none⟩

/-- The bulk worker loop `runSyncAllWorker` (lines 102–111) over a number of
queued jobs, each served to completion before the next is pulled. -/
def runSyncAllWorker (env : Env) : Nat → List (JobReply Nat)
  | 0 => []
  | n + 1 => serveSyncAllJob env :: runSyncAllWorker env n

/-- A test for trace entries that are batch directory lookups. -/
def isBatchCall : Call → Bool
  | .fetchAirportsBatch _ => true
  | _ => false

/-- How many batch directory lookups a trace contains. -/
def batchAttempts (t : List Call) : Nat := (t.filter isBatchCall).length

/-! ## Concrete environments used to instantiate the theorems -/

/-- An environment whose store is empty and whose collaborators are benign. -/
def idleEnv : Env where
  getAllAirports := .ok []
  getAirportByFAA := fun _ => .ok none
  fetchAirport := fun _ => .ok none
  fetchAirportsBatch := fun _ _ => .error "batch transport failure"
  fetchWeather := fun _ => .ok "Sunny"
  updateAirport := fun _ => none

/-- A fully populated record: every descriptive attribute is non-empty, so
`needsAirportFetch` is false for it. -/
def completeA : Airport :=
  ⟨"001", "Test Airport", "TST", "KTST", "CA", "California", "Test County",
   "Test City", "Public", "Public Use", "Manager", "123-456", "34.05",
   "-118.24", "Open", ""⟩

/-- The record the directory provider returns for an identifier. -/
def fetchedFor (f : String) : Airport := { completeA with faa := f }

/-- An environment where every collaborator call succeeds and the batch
lookup returns exactly one record per requested identifier. -/
def allOkEnv : Env where
  getAllAirports := .ok [completeA]
  getAirportByFAA := fun f => .ok (some (fetchedFor f))
  fetchAirport := fun f => .ok (some (fetchedFor f))
  fetchAirportsBatch := fun _ faas => .ok (faas.map fetchedFor)
  fetchWeather := fun _ => .ok "Sunny"
  updateAirport := fun _ => none

/-- An incomplete stored record: only the identifier is set. -/
def incompleteB : Airport := { emptyAirport with faa := "B" }

/-- An environment whose batch lookup fails on attempts 0 and 1 and would
succeed from attempt 2 on; everything else succeeds, and the store holds the
single incomplete record `B`. -/
def failTwiceEnv : Env where
  getAllAirports := .ok [incompleteB]
  getAirportByFAA := fun f => if f == "B" then .ok (some incompleteB) else .ok none
  fetchAirport := fun f => .ok (some (fetchedFor f))
  fetchAirportsBatch := fun attempt faas =>
    if attempt ≤ 1 then .error "batch transport failure" else .ok (faas.map fetchedFor)
  fetchWeather := fun _ => .ok "Sunny"
  updateAirport := fun _ => none

/-- The incomplete stored record of the unknown-upstream scenario. -/
def storedXYZ : Airport := { emptyAirport with faa := "XYZ" }

/-- An environment for the unknown-upstream scenario: the store holds the
incomplete record `XYZ`; the single-airport directory call goes through the
real helper `fetchAirportFromAviationAPI` over an HTTP 200 response whose
decoded map has no entry for any identifier (the provider does not recognize
the identifier); weather and persistence succeed. -/
def unknownUpstreamEnv : Env where
  getAllAirports := .ok [storedXYZ]
  getAirportByFAA := fun f => if f == "XYZ" then .ok (some storedXYZ) else .ok none
  fetchAirport := fetchAirportFromAviationAPI (.ok fun _ => [])
  fetchAirportsBatch := fun _ _ => .error "batch transport failure"
  fetchWeather := fun _ => .ok "Sunny"
  updateAirport := fun _ => none

/-- A record whose city the weather provider rejects. -/
def badWeatherA : Airport := { completeA with city := "Nowhere" }

/-- A record whose persisted update the store rejects. -/
def badUpdateA : Airport := { completeA with faa := "UPD" }

/-- An environment with one failing city, one failing persisted identifier,
and a store that recognizes no identifier (so single-record syncs fail). -/
def mixedEnv : Env where
  getAllAirports := .ok [completeA, badWeatherA]
  getAirportByFAA := fun _ => .ok none
  fetchAirport := fun f => .ok (some (fetchedFor f))
  fetchAirportsBatch := fun _ faas => .ok (faas.map fetchedFor)
  fetchWeather := fun c => if c == "Nowhere" then .error "storm" else .ok "Sunny"
  updateAirport := fun a => if a.faa == "UPD" then some "zero rows affected" else none

/-- Twenty-five fully populated records, for the chunk-boundary scenario. -/
def airports25 : List Airport := List.replicate 25 completeA

/-! ## Helper lemmas -/

/-- The chunk slices of an empty list are no chunks at all. -/
theorem chunksOf_nil : chunksOf ([] : List α) = [] := by
  simp [chunksOf, numChunks, chunkSize]

/-- The chunk slices of a non-empty list are its first `chunkSize` elements
followed by the chunk slices of the rest. -/
theorem chunksOf_cons (l : List α) (h : l ≠ []) :
    chunksOf l = l.take chunkSize :: chunksOf (l.drop chunkSize) := by
  have hn : 0 < l.length := List.length_pos.mpr h
  have hcount : numChunks l.length = numChunks (l.drop chunkSize).length + 1 := by
    simp only [numChunks, chunkSize, List.length_drop]
    omega
  unfold chunksOf
  rw [hcount, List.range_succ_eq_map, List.map_cons]
  simp only [Nat.zero_mul, List.drop_zero, List.map_map]
  congr 1
  congr 1
  funext k
  simp only [Function.comp_apply, Nat.succ_mul, List.drop_drop]
  congr 2
  omega

/-- Concatenating the chunk slices gives back the original list: the chunks
are contiguous and cover the list. -/
theorem chunksOf_flatten (l : List α) : (chunksOf l).flatten = l := by
  by_cases h : l = []
  · subst h
    simp [chunksOf_nil]
  · rw [chunksOf_cons l h, List.flatten_cons, chunksOf_flatten (l.drop chunkSize),
      List.take_append_drop]
termination_by l.length
decreasing_by
  have hn : 0 < l.length := List.length_pos.mpr h
  simp only [List.length_drop, chunkSize]
  omega

/-- The number of chunk slices is exactly the chunk count computed by
`SyncAllAirports`. -/
theorem chunksOf_length (l : List α) : (chunksOf l).length = numChunks l.length := by
  simp [chunksOf]

/-- Every chunk slice has at most `chunkSize` elements. -/
theorem chunksOf_mem_length_le (l : List α) (c : List α) (hc : c ∈ chunksOf l) :
    c.length ≤ chunkSize := by
  simp only [chunksOf, List.mem_map, List.mem_range] at hc
  obtain ⟨k, -, rfl⟩ := hc
  exact List.length_take_le chunkSize _

/-- The weather loop accounts for every record of its input exactly once:
its updated and error counts sum to the input length. -/
theorem weatherLoop_count (env : Env) (as : List Airport) :
    (weatherLoop env as).1.updated + (weatherLoop env as).1.errors = as.length := by
  induction as with
  | nil => rfl
  | cons a rest ih =>
      simp only [weatherLoop, List.length_cons]
      split
      · dsimp only
        omega
      · split
        · dsimp only
          omega
        · dsimp only
          omega

/-- The fallback loop accounts for every identifier of its input exactly
once: its updated and error counts sum to the input length. -/
theorem fallbackLoop_count (env : Env) (faas : List String) :
    (fallbackLoop env faas).1.updated + (fallbackLoop env faas).1.errors
      = faas.length := by
  induction faas with
  | nil => rfl
  | cons faa rest ih =>
      simp only [fallbackLoop, List.length_cons]
      split
      · dsimp only
        omega
      · dsimp only
        omega

/-- Splitting a list by a Boolean test preserves its total length. -/
theorem length_filter_partition (p : α → Bool) (l : List α) :
    (l.filter p).length + (l.filter fun a => !p a).length = l.length := by
  induction l with
  | nil => rfl
  | cons a t ih =>
      cases h : p a <;> simp [List.filter_cons, h] <;> omega

/-- Sums of two counters over one list split componentwise. -/
theorem sum_map_add (f g : α → Nat) (l : List α) :
    (l.map fun x => f x + g x).sum = (l.map f).sum + (l.map g).sum := by
  induction l with
  | nil => rfl
  | cons a t ih =>
      simp only [List.map_cons, List.sum_cons, ih]
      omega

/-- The lengths of the two chunk groups sum to the chunk length. -/
theorem incomplete_complete_length (chunk : List Airport) :
    (incompleteFAAOf chunk).length + (completeOf chunk).length = chunk.length := by
  simpa [incompleteFAAOf, completeOf] using
    length_filter_partition (fun a => needsAirportFetch a) chunk

/-- When the batch retry returns records, one of the two attempts produced
them. -/
theorem batchFetchRetry_ok (env : Env) (l : List String) (r : List Airport)
    (h : (batchFetchRetry env l).1 = .ok r) :
    env.fetchAirportsBatch 0 l = .ok r ∨ env.fetchAirportsBatch 1 l = .ok r := by
  unfold batchFetchRetry at h
  cases h0 : env.fetchAirportsBatch 0 l with
  | ok r0 =>
      rw [h0] at h
      simp only [Except.ok.injEq] at h
      left
      exact congrArg Except.ok h
  | error e0 =>
      rw [h0] at h
      cases h1 : env.fetchAirportsBatch 1 l with
      | ok r1 =>
          rw [h1] at h
          simp only [Except.ok.injEq] at h
          right
          exact congrArg Except.ok h
      | error e1 =>
          rw [h1] at h
          simp at h

/-- The batch retry consults the batch collaborator only at attempts 0
and 1. -/
theorem batchFetchRetry_congr (env : Env)
    (f : Nat → List String → Except Err (List Airport)) (l : List String)
    (h0 : f 0 l = env.fetchAirportsBatch 0 l)
    (h1 : f 1 l = env.fetchAirportsBatch 1 l) :
    batchFetchRetry { env with fetchAirportsBatch := f } l = batchFetchRetry env l := by
  unfold batchFetchRetry
  rw [show ({ env with fetchAirportsBatch := f } : Env).fetchAirportsBatch = f from rfl,
    h0, h1]

/-- The directory-refetch step never consults the batch collaborator. -/
theorem resolveAirport_congr_batch (env : Env)
    (f : Nat → List String → Except Err (List Airport)) (faa : String)
    (stored : Airport) :
    resolveAirport { env with fetchAirportsBatch := f } faa stored
      = resolveAirport env faa stored := rfl

/-- The weather-and-save step never consults the batch collaborator. -/
theorem refreshAndSave_congr_batch (env : Env)
    (f : Nat → List String → Except Err (List Airport)) (faa : String)
    (a : Airport) :
    refreshAndSave { env with fetchAirportsBatch := f } faa a
      = refreshAndSave env faa a := rfl

/-- The single-record sync never consults the batch collaborator. -/
theorem syncAirportByFAA_congr_batch (env : Env)
    (f : Nat → List String → Except Err (List Airport)) (faa : String) :
    syncAirportByFAA { env with fetchAirportsBatch := f } faa
      = syncAirportByFAA env faa := rfl

/-- The fallback loop never consults the batch collaborator. -/
theorem fallbackLoop_congr_batch (env : Env)
    (f : Nat → List String → Except Err (List Airport)) (faas : List String) :
    fallbackLoop { env with fetchAirportsBatch := f } faas = fallbackLoop env faas := by
  induction faas with
  | nil => rfl
  | cons faa rest ih =>
      simp only [fallbackLoop, ih, syncAirportByFAA_congr_batch]

/-- The weather loop never consults the batch collaborator. -/
theorem weatherLoop_congr_batch (env : Env)
    (f : Nat → List String → Except Err (List Airport)) (as : List Airport) :
    weatherLoop { env with fetchAirportsBatch := f } as = weatherLoop env as := by
  induction as with
  | nil => rfl
  | cons a rest ih =>
      simp only [weatherLoop, ih]

/-- The chunk worker consults the batch collaborator only at attempts 0
and 1: replacing every later attempt changes nothing. -/
theorem processChunk_congr_batch (env : Env)
    (f : Nat → List String → Except Err (List Airport)) (chunk : List Airport)
    (h0 : ∀ l, f 0 l = env.fetchAirportsBatch 0 l)
    (h1 : ∀ l, f 1 l = env.fetchAirportsBatch 1 l) :
    processChunk { env with fetchAirportsBatch := f } chunk = processChunk env chunk := by
  unfold processChunk
  simp only [batchFetchRetry_congr env f _ (h0 _) (h1 _), fallbackLoop_congr_batch,
    weatherLoop_congr_batch]

/-- Counting batch lookups distributes over trace concatenation. -/
theorem batchAttempts_append (s t : List Call) :
    batchAttempts (s ++ t) = batchAttempts s + batchAttempts t := by
  simp [batchAttempts, List.filter_append]

/-- Counting batch lookups steps through one leading trace entry. -/
theorem batchAttempts_cons (c : Call) (t : List Call) :
    batchAttempts (c :: t) = (if isBatchCall c then 1 else 0) + batchAttempts t := by
  by_cases h : isBatchCall c = true <;> simp [batchAttempts, List.filter_cons, h] <;> omega

/-- The directory-refetch step makes no batch lookup. -/
theorem resolveAirport_no_batch (env : Env) (faa : String) (stored : Airport) :
    batchAttempts (resolveAirport env faa stored).2 = 0 := by
  unfold resolveAirport
  split
  · split <;> simp [batchAttempts, isBatchCall]
  · simp [batchAttempts]

/-- The weather-and-save step makes no batch lookup. -/
theorem refreshAndSave_no_batch (env : Env) (faa : String) (a : Airport) :
    batchAttempts (refreshAndSave env faa a).2 = 0 := by
  simp only [refreshAndSave]
  split
  · simp [batchAttempts, isBatchCall]
  · split <;> simp [batchAttempts, isBatchCall]

/-- The single-record sync makes no batch lookup. -/
theorem syncAirportByFAA_no_batch (env : Env) (faa : String) :
    batchAttempts (syncAirportByFAA env faa).2 = 0 := by
  simp only [syncAirportByFAA]
  split
  · simp [batchAttempts, isBatchCall]
  · simp [batchAttempts, isBatchCall]
  · split <;>
      simp [batchAttempts_cons, batchAttempts_append, isBatchCall,
        resolveAirport_no_batch, refreshAndSave_no_batch]

/-- The fallback loop makes no batch lookup. -/
theorem fallbackLoop_no_batch (env : Env) (faas : List String) :
    batchAttempts (fallbackLoop env faas).2 = 0 := by
  induction faas with
  | nil => rfl
  | cons faa rest ih =>
      simp only [fallbackLoop]
      split <;>
        simp [batchAttempts_append, batchAttempts_cons, isBatchCall,
          syncAirportByFAA_no_batch, ih]

/-- The weather loop makes no batch lookup. -/
theorem weatherLoop_no_batch (env : Env) (as : List Airport) :
    batchAttempts (weatherLoop env as).2 = 0 := by
  induction as with
  | nil => rfl
  | cons a rest ih =>
      simp only [weatherLoop]
      split
      · simp [batchAttempts_cons, isBatchCall, ih]
      · split <;> simp [batchAttempts_cons, isBatchCall, ih]

/-- The batch retry makes at most two batch lookups. -/
theorem batchFetchRetry_attempts_le (env : Env) (l : List String) :
    batchAttempts (batchFetchRetry env l).2 ≤ 2 := by
  unfold batchFetchRetry
  split
  · simp [batchAttempts, isBatchCall]
  · split <;> simp [batchAttempts, isBatchCall]

/-- When both attempts fail, the batch retry returns the second error and its
trace is the two batch calls separated by the one-second backoff. -/
theorem batchFetchRetry_both_fail (env : Env) (l : List String) (e0 e1 : Err)
    (h0 : env.fetchAirportsBatch 0 l = .error e0)
    (h1 : env.fetchAirportsBatch 1 l = .error e1) :
    batchFetchRetry env l
      = (.error e1, [.fetchAirportsBatch l, .sleepMs 1000, .fetchAirportsBatch l]) := by
  unfold batchFetchRetry
  rw [h0, h1]

/-- When every weather lookup and every persistence call succeeds, the
weather loop updates every record and counts no error. -/
theorem weatherLoop_all_ok (env : Env) (as : List Airport)
    (hweather : ∀ city, ∃ w, env.fetchWeather city = .ok w)
    (hupdate : ∀ a, env.updateAirport a = none) :
    (weatherLoop env as).1 = ⟨as.length, 0⟩ := by
  induction as with
  | nil => rfl
  | cons a rest ih =>
      obtain ⟨w, hw⟩ := hweather a.city
      simp [weatherLoop, hw, hupdate, ih]

/-- When the batch lookup succeeds with one record per identifier and every
weather and persistence call succeeds, a chunk worker updates every record
of its chunk and counts no error. -/
theorem processChunk_all_ok (env : Env) (chunk : List Airport)
    (hbatch : ∀ n faas, ∃ res,
      env.fetchAirportsBatch n faas = .ok res ∧ res.length = faas.length)
    (hweather : ∀ city, ∃ w, env.fetchWeather city = .ok w)
    (hupdate : ∀ a, env.updateAirport a = none) :
    (processChunk env chunk).1 = ⟨chunk.length, 0⟩ := by
  have hpart := incomplete_complete_length chunk
  simp only [processChunk]
  by_cases hinc : (incompleteFAAOf chunk).isEmpty = true
  · rw [if_pos hinc]
    rw [weatherLoop_all_ok env _ hweather hupdate]
    have hlen0 : (incompleteFAAOf chunk).length = 0 := by
      simp [List.isEmpty_iff] at hinc
      simp [hinc]
    congr 1
    omega
  · rw [if_neg hinc]
    obtain ⟨res, hres, hlen⟩ := hbatch 0 (incompleteFAAOf chunk)
    have hretry : batchFetchRetry env (incompleteFAAOf chunk)
        = (.ok res, [.fetchAirportsBatch (incompleteFAAOf chunk)]) := by
      unfold batchFetchRetry
      rw [hres]
    rw [hretry]
    dsimp only
    rw [weatherLoop_all_ok env _ hweather hupdate]
    congr 1
    simp only [List.length_append]
    omega

/-- The total length of the chunk slices is the length of the list. -/
theorem chunksOf_sum_length (l : List α) :
    ((chunksOf l).map List.length).sum = l.length := by
  conv_rhs => rw [← chunksOf_flatten l]
  rw [List.length_flatten]

/-- When every collaborator call succeeds and the batch lookup returns one
record per identifier, the per-chunk totals are the record count and zero
errors. -/
theorem syncAllTotals_all_ok (env : Env) (l : List Airport)
    (hbatch : ∀ n faas, ∃ res,
      env.fetchAirportsBatch n faas = .ok res ∧ res.length = faas.length)
    (hweather : ∀ city, ∃ w, env.fetchWeather city = .ok w)
    (hupdate : ∀ a, env.updateAirport a = none) :
    syncAllTotals env l = (l.length, 0) := by
  unfold syncAllTotals
  rw [Prod.mk.injEq]
  constructor
  · rw [List.map_map]
    have : ((chunksOf l).map ((fun r : ChunkResult × List Call => r.1.updated)
        ∘ processChunk env)) = (chunksOf l).map List.length := by
      apply List.map_congr_left
      intro c _
      show (processChunk env c).1.updated = c.length
      rw [processChunk_all_ok env c hbatch hweather hupdate]
    rw [this, chunksOf_sum_length]
  · rw [List.map_map]
    apply List.sum_eq_zero
    intro x hx
    simp only [List.mem_map] at hx
    obtain ⟨c, -, rfl⟩ := hx
    show (processChunk env c).1.errors = 0
    rw [processChunk_all_ok env c hbatch hweather hupdate]

/-- When the batch lookup never returns more records than identifiers it was
asked for, a chunk worker accounts for at most its chunk length. -/
theorem processChunk_count_le (env : Env) (chunk : List Airport)
    (hbatch : ∀ n faas res,
      env.fetchAirportsBatch n faas = .ok res → res.length ≤ faas.length) :
    (processChunk env chunk).1.updated + (processChunk env chunk).1.errors
      ≤ chunk.length := by
  have hpart := incomplete_complete_length chunk
  simp only [processChunk]
  by_cases hinc : (incompleteFAAOf chunk).isEmpty = true
  · rw [if_pos hinc]
    have := weatherLoop_count env (completeOf chunk)
    omega
  · rw [if_neg hinc]
    cases hb : (batchFetchRetry env (incompleteFAAOf chunk)).1 with
    | ok fetched =>
        dsimp only
        have hf : fetched.length ≤ (incompleteFAAOf chunk).length := by
          rcases batchFetchRetry_ok env _ fetched hb with h | h
          · exact hbatch 0 _ _ h
          · exact hbatch 1 _ _ h
        have hwc := weatherLoop_count env (fetched ++ completeOf chunk)
        simp only [List.length_append] at hwc
        omega
    | error e =>
        dsimp only
        have h1 := fallbackLoop_count env (incompleteFAAOf chunk)
        have h2 := weatherLoop_count env (completeOf chunk)
        omega

/-- When the batch lookup never returns more records than identifiers, the
two totals together never exceed the record count. -/
theorem syncAllTotals_le (env : Env) (l : List Airport)
    (hbatch : ∀ n faas res,
      env.fetchAirportsBatch n faas = .ok res → res.length ≤ faas.length) :
    (syncAllTotals env l).1 + (syncAllTotals env l).2 ≤ l.length := by
  unfold syncAllTotals
  dsimp only
  rw [← sum_map_add (fun r : ChunkResult × List Call => r.1.updated)
    (fun r : ChunkResult × List Call => r.1.errors)
    ((chunksOf l).map (processChunk env))]
  rw [List.map_map]
  calc ((chunksOf l).map ((fun r : ChunkResult × List Call => r.1.updated + r.1.errors)
        ∘ processChunk env)).sum
      ≤ ((chunksOf l).map List.length).sum := by
        apply List.sum_le_sum
        intro c _
        exact processChunk_count_le env c hbatch
    _ = l.length := chunksOf_sum_length l

/-- The single-record sync always records its store lookup in its trace. -/
theorem syncAirportByFAA_trace_mem (env : Env) (faa : String) :
    Call.getAirportByFAA faa ∈ (syncAirportByFAA env faa).2 := by
  simp only [syncAirportByFAA]
  split
  · simp
  · simp
  · split <;> simp

/-- The fallback loop records a store lookup for every identifier it was
given. -/
theorem fallbackLoop_mem_store_lookup (env : Env) (faas : List String)
    (faa : String) (h : faa ∈ faas) :
    Call.getAirportByFAA faa ∈ (fallbackLoop env faas).2 := by
  induction faas with
  | nil => cases h
  | cons f rest ih =>
      simp only [fallbackLoop]
      rcases List.mem_cons.mp h with rfl | hmem
      · split <;>
          exact List.mem_append_left _ (syncAirportByFAA_trace_mem env faa)
      · split <;>
          exact List.mem_append_right _ (List.mem_cons_of_mem _ (ih hmem))

/-- The outcome of a bulk run over a non-empty record set, written with the
totals in evidence. -/
theorem syncAllAirports_nonempty (env : Env) (l : List Airport)
    (hget : env.getAllAirports = .ok l) (hne : l ≠ []) :
    syncAllAirports env =
      if 0 < (syncAllTotals env l).2 ∧ (syncAllTotals env l).1 = 0 then
        ⟨0, some .failedSyncAllAirports, syncAllTrace env l⟩
      else ⟨(syncAllTotals env l).1, none, syncAllTrace env l⟩ := by
  have hiE : ¬(l.isEmpty = true) := by
    simp only [List.isEmpty_iff]
    exact hne
  simp only [syncAllAirports, hget]
  rw [if_neg hiE]

/-! ## Claim theorems and their instantiations -/

/-- C5: `SyncAllAirports` on an empty record set returns a zero count and the
`noAirportsToSync` error immediately: the only collaborator call in its trace
is the store read, so no remote lookup, no persistence call and no chunk work
happens. -/
theorem syncAllAirports_empty_store (env : Env)
    (h : env.getAllAirports = .ok []) :
    syncAllAirports env = ⟨0, some .noAirportsToSync, [.getAllAirports]⟩ := by
  simp [syncAllAirports, h]

/-- A concrete run of the C5 theorem on an environment with an empty store. -/
theorem syncAllAirports_empty_store_witness :
    syncAllAirports idleEnv = ⟨0, some .noAirportsToSync, [.getAllAirports]⟩ :=
  syncAllAirports_empty_store idleEnv rfl

/-- C7: when the store lookup succeeds but finds no record, the single-record
sync returns the not-found error and its trace holds only the store lookup:
no directory lookup, no weather lookup and no persistence call happens. -/
theorem syncAirportByFAA_absent_store (env : Env) (faa : String)
    (h : env.getAirportByFAA faa = .ok none) :
    syncAirportByFAA env faa
      = (.error (.noAirportFound faa), [.getAirportByFAA faa]) := by
  simp [syncAirportByFAA, h]

/-- A concrete run of the C7 theorem on an identifier absent from the
store. -/
theorem syncAirportByFAA_absent_store_witness :
    syncAirportByFAA idleEnv "TST"
      = (.error (.noAirportFound "TST"), [.getAirportByFAA "TST"]) :=
  syncAirportByFAA_absent_store idleEnv "TST" rfl

/-- C6, evaluated at the failing input: the stored record `XYZ` is incomplete
and the directory provider answers HTTP 200 with a decoded map holding no
entry for the identifier.  The real helper then returns a non-nil zero-value
record, so the nil-check of `SyncAirportByFAA` (line 197) never fires: the
sync does NOT return a not-found error; it proceeds with the empty record,
fetches weather for the empty city and persists an empty record whose
identifier is lost. -/
theorem syncAirportByFAA_unknown_upstream_proceeds :
    (syncAirportByFAA unknownUpstreamEnv "XYZ").1
        = .ok { emptyAirport with weather := "Sunny" } ∧
    (syncAirportByFAA unknownUpstreamEnv "XYZ").2
        = [.getAirportByFAA "XYZ", .fetchAirport "XYZ", .fetchWeather "",
           .updateAirport { emptyAirport with weather := "Sunny" }] := by
  constructor <;> rfl

/-- C3: each worker loop serves the queued jobs one at a time in queue order
and delivers exactly one reply per job: either the result or the error on a
one-slot channel, never both and never neither.  Each single-consumer loop is
sequential — a job is served to completion before the next is pulled — so no
two bulk syncs and no two single-record syncs are in flight at once. -/
theorem workers_one_reply_per_job (env : Env) (jobs : List String) (n : Nat) :
    runSyncWorker env jobs = jobs.map (serveSyncJob env) ∧
    runSyncAllWorker env n = List.replicate n (serveSyncAllJob env) ∧
    (∀ r ∈ runSyncWorker env jobs,
      (r.resultSlot = none ∧ r.errSlot ≠ none) ∨
      (r.resultSlot ≠ none ∧ r.errSlot = none)) ∧
    (∀ r ∈ runSyncAllWorker env n,
      (r.resultSlot = none ∧ r.errSlot ≠ none) ∨
      (r.resultSlot ≠ none ∧ r.errSlot = none)) := by
  have h1 : ∀ js : List String, runSyncWorker env js = js.map (serveSyncJob env) := by
    intro js
    induction js with
    | nil => rfl
    | cons j rest ih => simp [runSyncWorker, ih]
  have h2 : ∀ m : Nat, runSyncAllWorker env m = List.replicate m (serveSyncAllJob env) := by
    intro m
    induction m with
    | zero => rfl
    | succ m ih => simp [runSyncAllWorker, ih, List.replicate_succ]
  have hx1 : ∀ faa,
      ((serveSyncJob env faa).resultSlot = none ∧ (serveSyncJob env faa).errSlot ≠ none) ∨
      ((serveSyncJob env faa).resultSlot ≠ none ∧ (serveSyncJob env faa).errSlot = none) := by
    intro faa
    unfold serveSyncJob
    cases (syncAirportByFAA env faa).1 <;> simp
  have hx2 :
      ((serveSyncAllJob env).resultSlot = none ∧ (serveSyncAllJob env).errSlot ≠ none) ∨
      ((serveSyncAllJob env).resultSlot ≠ none ∧ (serveSyncAllJob env).errSlot = none) := by
    unfold serveSyncAllJob
    cases h : (syncAllAirports env).err <;> simp [h]
  refine ⟨h1 jobs, h2 n, ?_, ?_⟩
  · intro r hr
    rw [h1 jobs] at hr
    simp only [List.mem_map] at hr
    obtain ⟨faa, -, rfl⟩ := hr
    exact hx1 faa
  · intro r hr
    rw [h2 n] at hr
    rw [List.eq_of_mem_replicate hr]
    exact hx2

/-- C1: over a non-empty record set the aggregated outcome follows the
three-way policy: errors with some updates is a partial success reported as
the updated count with no error; errors with zero updates is the generic
failure; zero errors is a full success with the updated count. -/
theorem syncAllAirports_outcome_policy (env : Env) (l : List Airport)
    (hget : env.getAllAirports = .ok l) (hne : l ≠ []) :
    (0 < (syncAllTotals env l).2 → 0 < (syncAllTotals env l).1 →
      (syncAllAirports env).updated = (syncAllTotals env l).1 ∧
        (syncAllAirports env).err = none) ∧
    (0 < (syncAllTotals env l).2 → (syncAllTotals env l).1 = 0 →
      (syncAllAirports env).updated = 0 ∧
        (syncAllAirports env).err = some .failedSyncAllAirports) ∧
    ((syncAllTotals env l).2 = 0 →
      (syncAllAirports env).updated = (syncAllTotals env l).1 ∧
        (syncAllAirports env).err = none) := by
  rw [syncAllAirports_nonempty env l hget hne]
  refine ⟨?_, ?_, ?_⟩
  · intro h1 h2
    rw [if_neg (by omega)]
    exact ⟨rfl, rfl⟩
  · intro h1 h2
    rw [if_pos ⟨h1, h2⟩]
    exact ⟨rfl, rfl⟩
  · intro h1
    rw [if_neg (by omega)]
    exact ⟨rfl, rfl⟩

/-- A concrete partial-success run of the C1 theorem: one record updates and
one record fails, and the run reports the updated count with no error. -/
theorem syncAllAirports_outcome_policy_witness :
    0 < (syncAllTotals mixedEnv [completeA, badWeatherA]).2 ∧
    0 < (syncAllTotals mixedEnv [completeA, badWeatherA]).1 ∧
    (syncAllAirports mixedEnv).updated
      = (syncAllTotals mixedEnv [completeA, badWeatherA]).1 ∧
    (syncAllAirports mixedEnv).err = none := by
  have h := (syncAllAirports_outcome_policy mixedEnv [completeA, badWeatherA]
    rfl (by decide)).1 (by decide) (by decide)
  exact ⟨by decide, by decide, h.1, h.2⟩

/-- C4: over a non-empty record set, when every batch directory lookup
succeeds with exactly one record per requested identifier, every weather
lookup succeeds and every persistence call succeeds, the bulk sync reports
an updated count equal to the total number of stored records and no error. -/
theorem syncAllAirports_all_success (env : Env) (l : List Airport)
    (hget : env.getAllAirports = .ok l) (hne : l ≠ [])
    (hbatch : ∀ n faas, ∃ res,
      env.fetchAirportsBatch n faas = .ok res ∧ res.length = faas.length)
    (hweather : ∀ city, ∃ w, env.fetchWeather city = .ok w)
    (hupdate : ∀ a, env.updateAirport a = none) :
    (syncAllAirports env).updated = l.length ∧ (syncAllAirports env).err = none := by
  have htot := syncAllTotals_all_ok env l hbatch hweather hupdate
  rw [syncAllAirports_nonempty env l hget hne]
  rw [if_neg (by simp [htot])]
  constructor
  · show (syncAllTotals env l).1 = l.length
    rw [htot]
  · rfl

/-- A concrete all-success run of the C4 theorem over a one-record store. -/
theorem syncAllAirports_all_success_witness :
    (syncAllAirports allOkEnv).updated = 1 ∧ (syncAllAirports allOkEnv).err = none := by
  have h := syncAllAirports_all_success allOkEnv [completeA] rfl (by decide)
    (fun n faas => ⟨faas.map fetchedFor, rfl, by simp⟩)
    (fun city => ⟨"Sunny", rfl⟩)
    (fun a => rfl)
  simpa using h

/-- C9: a record set of n > 0 records is partitioned into exactly
ceil(n/20) contiguous chunks with boundaries at the multiples of 20, each of
at most 20 records, and the bulk sync launches one chunk worker per chunk. -/
theorem syncAllAirports_chunking (env : Env) (l : List Airport) (hne : l ≠ []) :
    (chunksOf l).length = numChunks l.length ∧
    numChunks l.length = (l.length + 19) / 20 ∧
    (∀ c ∈ chunksOf l, c.length ≤ 20) ∧
    (chunksOf l).flatten = l ∧
    (∀ k, ∀ hk : k < (chunksOf l).length,
      (chunksOf l).get ⟨k, hk⟩ = (l.drop (k * 20)).take 20) ∧
    ((chunksOf l).map (processChunk env)).length = numChunks l.length := by
  refine ⟨chunksOf_length l, by simp [numChunks, chunkSize], ?_,
    chunksOf_flatten l, ?_, ?_⟩
  · intro c hc
    exact chunksOf_mem_length_le l c hc
  · intro k hk
    simp [chunksOf, chunkSize]
  · simp [chunksOf_length l]

/-- A concrete run of the C9 theorem: 25 records yield exactly two chunks,
split at record 20. -/
theorem syncAllAirports_chunking_witness :
    (chunksOf airports25).length = numChunks airports25.length ∧
    (chunksOf airports25).length = 2 ∧
    chunksOf airports25 = [airports25.take 20, airports25.drop 20] := by
  refine ⟨(syncAllAirports_chunking idleEnv airports25 (by decide)).1, by decide, by decide⟩

/-- C10: when each batch directory lookup returns at most one record per
requested identifier, the final updated total plus the accumulated error
total never exceeds the number of records read from the store snapshot, and
the returned updated count is at most the total record count. -/
theorem syncAllAirports_count_bound (env : Env) (l : List Airport)
    (hget : env.getAllAirports = .ok l)
    (hbatch : ∀ n faas res,
      env.fetchAirportsBatch n faas = .ok res → res.length ≤ faas.length) :
    (syncAllTotals env l).1 + (syncAllTotals env l).2 ≤ l.length ∧
    (syncAllAirports env).updated ≤ l.length := by
  have hle := syncAllTotals_le env l hbatch
  refine ⟨hle, ?_⟩
  by_cases hne : l = []
  · subst hne
    simp [syncAllAirports, hget]
  · rw [syncAllAirports_nonempty env l hget hne]
    by_cases hc : 0 < (syncAllTotals env l).2 ∧ (syncAllTotals env l).1 = 0
    · rw [if_pos hc]
      exact Nat.zero_le _
    · rw [if_neg hc]
      show (syncAllTotals env l).1 ≤ l.length
      omega

/-- A concrete run of the C10 theorem over a one-record store. -/
theorem syncAllAirports_count_bound_witness :
    (syncAllTotals allOkEnv [completeA]).1 + (syncAllTotals allOkEnv [completeA]).2 ≤ 1 ∧
    (syncAllAirports allOkEnv).updated ≤ 1 := by
  have h := syncAllAirports_count_bound allOkEnv [completeA] rfl
    (fun n faas res hres => by
      have hlen : res.length = faas.length := by
        rw [← Except.ok.inj hres, List.length_map]
      exact hlen.le)
  simpa using h

/-- C8: inside a bulk run a weather-lookup failure or a persistence failure
for one record adds one to the error count and processing continues with the
next record; each single-record failure on the fallback path is likewise one
counted error without aborting the remaining lookups; and the only errors a
bulk run ever surfaces are the aggregate ones — never a per-record error. -/
theorem perRecord_failures_counted_not_surfaced (env : Env) :
    (∀ a rest e, env.fetchWeather a.city = .error e →
      (weatherLoop env (a :: rest)).1.updated = (weatherLoop env rest).1.updated ∧
      (weatherLoop env (a :: rest)).1.errors = (weatherLoop env rest).1.errors + 1) ∧
    (∀ a rest w e, env.fetchWeather a.city = .ok w →
      env.updateAirport { a with weather := w } = some e →
      (weatherLoop env (a :: rest)).1.updated = (weatherLoop env rest).1.updated ∧
      (weatherLoop env (a :: rest)).1.errors = (weatherLoop env rest).1.errors + 1) ∧
    (∀ faa rest e, (syncAirportByFAA env faa).1 = .error e →
      (fallbackLoop env (faa :: rest)).1.updated = (fallbackLoop env rest).1.updated ∧
      (fallbackLoop env (faa :: rest)).1.errors = (fallbackLoop env rest).1.errors + 1) ∧
    (∀ e, (syncAllAirports env).err = some e →
      e = .failedSyncAllAirports ∨ e = .noAirportsToSync ∨
        ∃ s, e = .failedGetAirports s) := by
  refine ⟨?_, ?_, ?_, ?_⟩
  · intro a rest e he
    simp [weatherLoop, he]
  · intro a rest w e hw hu
    simp [weatherLoop, hw, hu]
  · intro faa rest e hs
    simp [fallbackLoop, hs]
  · intro e he
    unfold syncAllAirports at he
    cases hg : env.getAllAirports with
    | error e2 =>
        rw [hg] at he
        simp only [Option.some.injEq] at he
        right; right
        exact ⟨e2, he.symm⟩
    | ok l =>
        rw [hg] at he
        dsimp only at he
        split at he
        · simp only [Option.some.injEq] at he
          right; left
          exact he.symm
        · split at he
          · simp only [Option.some.injEq] at he
            left
            exact he.symm
          · simp at he

/-- Concrete runs of the C8 theorem: a failing weather lookup, a failing
persistence call, a failing fallback identifier, and a surfaced aggregate
error. -/
theorem perRecord_failures_witness :
    ((weatherLoop mixedEnv [badWeatherA]).1.updated
        = (weatherLoop mixedEnv []).1.updated ∧
      (weatherLoop mixedEnv [badWeatherA]).1.errors
        = (weatherLoop mixedEnv []).1.errors + 1) ∧
    ((weatherLoop mixedEnv [badUpdateA]).1.updated
        = (weatherLoop mixedEnv []).1.updated ∧
      (weatherLoop mixedEnv [badUpdateA]).1.errors
        = (weatherLoop mixedEnv []).1.errors + 1) ∧
    ((fallbackLoop mixedEnv ["Z"]).1.updated = (fallbackLoop mixedEnv []).1.updated ∧
      (fallbackLoop mixedEnv ["Z"]).1.errors = (fallbackLoop mixedEnv []).1.errors + 1) ∧
    (SvcErr.noAirportsToSync = .failedSyncAllAirports ∨
      SvcErr.noAirportsToSync = .noAirportsToSync ∨
      ∃ s, SvcErr.noAirportsToSync = .failedGetAirports s) := by
  have h := perRecord_failures_counted_not_surfaced mixedEnv
  have h4 := (perRecord_failures_counted_not_surfaced idleEnv).2.2.2
    SvcErr.noAirportsToSync (by decide)
  exact ⟨h.1 badWeatherA [] "storm" rfl,
    h.2.1 badUpdateA [] "Sunny" "zero rows affected" rfl rfl,
    h.2.2.1 "Z" [] (.noAirportFound "Z") rfl, h4⟩

/-- C2 counterexample to the claim as stated: against a batch collaborator
that fails on attempts 0 and 1 and would succeed from attempt 2 on, the chunk
worker DOES reach the sequential single-record fallback — its trace holds the
fallback's store lookup for the incomplete identifier `B` — after exactly two
batch attempts, so the fallback is not "never reached". -/
theorem batch_fail_twice_cex :
    (failTwiceEnv.fetchAirportsBatch 2 ["B"]).isOk = true ∧
    Call.getAirportByFAA "B" ∈ (processChunk failTwiceEnv [incompleteB]).2 ∧
    batchAttempts (processChunk failTwiceEnv [incompleteB]).2 = 2 := by
  refine ⟨rfl, by decide, by decide⟩

/-- C2 (amended): the batch lookup of a chunk is attempted at most twice;
when both attempts fail — even against a collaborator that would succeed on a
third attempt — exactly two attempts are made, separated by the fixed
one-second backoff, the third attempt is never consulted, and the sequential
single-record fallback IS then reached for every incomplete identifier. -/
theorem batch_retry_two_attempts (env : Env) (chunk : List Airport)
    (hne : incompleteFAAOf chunk ≠ [])
    (h0 : ∃ e, env.fetchAirportsBatch 0 (incompleteFAAOf chunk) = .error e)
    (h1 : ∃ e, env.fetchAirportsBatch 1 (incompleteFAAOf chunk) = .error e) :
    (∀ env2 : Env, ∀ c2 : List Airport,
      batchAttempts (processChunk env2 c2).2 ≤ 2) ∧
    batchAttempts (processChunk env chunk).2 = 2 ∧
    (∃ rest, (processChunk env chunk).2
      = Call.fetchAirportsBatch (incompleteFAAOf chunk) :: Call.sleepMs 1000 ::
          Call.fetchAirportsBatch (incompleteFAAOf chunk) :: rest) ∧
    (∀ f : Nat → List String → Except Err (List Airport),
      (∀ l, f 0 l = env.fetchAirportsBatch 0 l) →
      (∀ l, f 1 l = env.fetchAirportsBatch 1 l) →
      processChunk { env with fetchAirportsBatch := f } chunk
        = processChunk env chunk) ∧
    (∀ faa ∈ incompleteFAAOf chunk,
      Call.getAirportByFAA faa ∈ (processChunk env chunk).2) := by
  have hle : ∀ env2 : Env, ∀ c2 : List Airport,
      batchAttempts (processChunk env2 c2).2 ≤ 2 := by
    intro env2 c2
    simp only [processChunk]
    by_cases hi : (incompleteFAAOf c2).isEmpty = true
    · rw [if_pos hi]
      simp [weatherLoop_no_batch]
    · rw [if_neg hi]
      cases hb : (batchFetchRetry env2 (incompleteFAAOf c2)).1 with
      | ok fetched =>
          dsimp only
          rw [batchAttempts_append, weatherLoop_no_batch]
          have := batchFetchRetry_attempts_le env2 (incompleteFAAOf c2)
          omega
      | error e =>
          dsimp only
          rw [batchAttempts_append, batchAttempts_append, fallbackLoop_no_batch,
            weatherLoop_no_batch]
          have := batchFetchRetry_attempts_le env2 (incompleteFAAOf c2)
          omega
  obtain ⟨e0, h0⟩ := h0
  obtain ⟨e1, h1⟩ := h1
  have hretry := batchFetchRetry_both_fail env (incompleteFAAOf chunk) e0 e1 h0 h1
  have hiE : ¬((incompleteFAAOf chunk).isEmpty = true) := by
    simp only [List.isEmpty_iff]
    exact hne
  have hpc : processChunk env chunk
      = (⟨(fallbackLoop env (incompleteFAAOf chunk)).1.updated
            + (weatherLoop env (completeOf chunk)).1.updated,
          (fallbackLoop env (incompleteFAAOf chunk)).1.errors
            + (weatherLoop env (completeOf chunk)).1.errors⟩,
         [Call.fetchAirportsBatch (incompleteFAAOf chunk), Call.sleepMs 1000,
          Call.fetchAirportsBatch (incompleteFAAOf chunk)]
           ++ (fallbackLoop env (incompleteFAAOf chunk)).2
           ++ (weatherLoop env (completeOf chunk)).2) := by
    simp only [processChunk]
    rw [if_neg hiE, hretry]
  refine ⟨hle, ?_, ?_, ?_, ?_⟩
  · rw [hpc]
    dsimp only
    rw [batchAttempts_append, batchAttempts_append, fallbackLoop_no_batch,
      weatherLoop_no_batch]
    simp [batchAttempts, List.filter_cons, isBatchCall]
  · refine ⟨(fallbackLoop env (incompleteFAAOf chunk)).2
      ++ (weatherLoop env (completeOf chunk)).2, ?_⟩
    rw [hpc]
    simp
  · intro f hf0 hf1
    exact processChunk_congr_batch env f chunk hf0 hf1
  · intro faa hfaa
    rw [hpc]
    exact List.mem_append_left _
      (List.mem_append_right _ (fallbackLoop_mem_store_lookup env _ faa hfaa))

/-- A concrete run of the amended C2 theorem: the batch lookup fails on both
attempts against a collaborator that would succeed on attempt 2, two batch
attempts appear in the trace, and the fallback store lookup for `B` is
reached. -/
theorem batch_retry_two_attempts_witness :
    batchAttempts (processChunk failTwiceEnv [incompleteB]).2 = 2 ∧
    (∀ faa ∈ incompleteFAAOf [incompleteB],
      Call.getAirportByFAA faa ∈ (processChunk failTwiceEnv [incompleteB]).2) := by
  have h := batch_retry_two_attempts failTwiceEnv [incompleteB] (by decide)
    ⟨"batch transport failure", rfl⟩ ⟨"batch transport failure", rfl⟩
  exact ⟨h.2.1, h.2.2.2.2⟩

end AviationWeather
